import Mathlib

/-!
Verification of the link-layer packet codec, transmit-path handling,
adaptive receive-threshold adjustment, and message-bus deduplication of
the tve/devices repository, shallowly embedded in Lean.

Bytes are modelled as `Nat` (with explicit masking where the Go code
masks); signed machine integers as `Int`; byte slices as `List Nat`;
fallible functions return `Except`/`Option`.
-/

namespace Devices

/-! ## JeeLabs FSK codec (sx1231/jeelabs.go) -/

/-- One bit of a group id: `(grp >> k) & 1`. -/
def grpBit (grp k : Nat) : Nat := (grp >>> k) &&& 1

/-- Parity bit 7 of the JeeLabs header: xor of the odd bits of the group id. -/
def jlP7 (grp : Nat) : Nat :=
  grpBit grp 7 ^^^ grpBit grp 5 ^^^ grpBit grp 3 ^^^ grpBit grp 1

/-- Parity bit 6 of the JeeLabs header: xor of the even bits of the group id. -/
def jlP6 (grp : Nat) : Nat :=
  grpBit grp 6 ^^^ grpBit grp 4 ^^^ grpBit grp 2 ^^^ grpBit grp 0

/-- The two group-parity bits as they appear in the top bits of header byte 0. -/
def jlParityByte (grp : Nat) : Nat := (jlP7 grp <<< 7) ||| (jlP6 grp <<< 6)

/-- `JLEncode` from sx1231/jeelabs.go: 2-byte header (destination plus the
two parity bits; source plus the ack bit) followed by the payload. -/
def JLEncode (grp src dst : Nat) (ack : Bool) (payload : List Nat) : List Nat :=
  ((dst &&& 0x3f) ||| (jlP7 grp <<< 7) ||| (jlP6 grp <<< 6)) ::
    ((src &&& 0x3f) ||| (if ack then 0x80 else 0)) :: payload

/-- Decode failure conditions of `JLDecode`. -/
inductive JLError where
  | tooShort (len : Nat)
  | groupMismatch (got want : Nat)
deriving DecidableEq, Repr

/-- Decoded view of a JeeLabs packet: the tuple `(src, dst, ack, payload)`
returned by `JLDecode`. -/
structure JLPacket where
  src : Nat
  dst : Nat
  ack : Bool
  payload : List Nat
deriving DecidableEq, Repr

instance {ε α : Type} [DecidableEq ε] [DecidableEq α] : DecidableEq (Except ε α)
  | .error e, .error f =>
    if h : e = f then .isTrue (by rw [h]) else .isFalse (by simp [h])
  | .error _, .ok _ => .isFalse (by simp)
  | .ok _, .error _ => .isFalse (by simp)
  | .ok a, .ok b =>
    if h : a = b then .isTrue (by rw [h]) else .isFalse (by simp [h])

/-- `JLDecode` from sx1231/jeelabs.go: reject packets shorter than 2 bytes,
reject a group-parity mismatch in byte 0, otherwise strip the 2-byte header. -/
def JLDecode (grp : Nat) (payload : List Nat) : Except JLError JLPacket :=
  match payload with
  | b0 :: b1 :: rest =>
    if (b0 &&& 0xc0) ≠ jlParityByte grp then
      .error (.groupMismatch (b0 &&& 0xc0) (jlParityByte grp))
    else
      .ok ⟨b1 &&& 0x3f, b0 &&& 0x3f, b1 &&& 0x80 != 0, rest⟩
  | _ => .error (.tooShort payload.length)

/-- `MakeJLAck` from sx1231/jeelabs.go: decode the received packet; if it
decodes and requests an ack, answer with an empty packet addressed back to
the sender, else return nothing. -/
def MakeJLAck (grp : Nat) (payload : List Nat) : Option (List Nat) :=
  match JLDecode grp payload with
  | .ok pkt => if pkt.ack then some (JLEncode grp pkt.dst pkt.src false []) else none
  | .error _ => none

/-! ### Bit-level helper lemmas -/

theorem grpBit_le_one (grp k : Nat) : grpBit grp k ≤ 1 :=
  Nat.and_le_right

theorem xor_le_one {a b : Nat} (ha : a ≤ 1) (hb : b ≤ 1) : a ^^^ b ≤ 1 := by
  interval_cases a <;> interval_cases b <;> decide

theorem jlP7_le_one (grp : Nat) : jlP7 grp ≤ 1 := by
  unfold jlP7
  exact xor_le_one (xor_le_one (xor_le_one (grpBit_le_one _ _) (grpBit_le_one _ _))
    (grpBit_le_one _ _)) (grpBit_le_one _ _)

theorem jlP6_le_one (grp : Nat) : jlP6 grp ≤ 1 := by
  unfold jlP6
  exact xor_le_one (xor_le_one (xor_le_one (grpBit_le_one _ _) (grpBit_le_one _ _))
    (grpBit_le_one _ _)) (grpBit_le_one _ _)

theorem land63_self : ∀ d < 64, d &&& 63 = d := by decide

theorem land128_eq_zero : ∀ d < 64, d &&& 128 = 0 := by decide

/-- Header byte 0 facts: masking with 0xc0 recovers the parity bits, masking
with 0x3f recovers the destination. -/
theorem byte0_facts : ∀ p7 < 2, ∀ p6 < 2, ∀ d < 64,
    (((d ||| (p7 <<< 7)) ||| (p6 <<< 6)) &&& 0xc0 = (p7 <<< 7) ||| (p6 <<< 6)) ∧
    (((d ||| (p7 <<< 7)) ||| (p6 <<< 6)) &&& 0x3f = d) := by decide

/-- Header byte 1 facts with the ack bit set. -/
theorem byte1_facts : ∀ s < 64,
    ((s ||| 128) &&& 0x3f = s) ∧ ((s ||| 128) &&& 0x80 = 128) := by decide

theorem jl_dst_lt (dst : Nat) : dst &&& 63 < 64 :=
  Nat.lt_succ_of_le Nat.and_le_right

/-- Masking byte 0 of an encoded packet with 0xc0 yields the encoding group's
parity byte, whatever the destination. -/
theorem encode_byte0_parity (grp dst : Nat) :
    (((dst &&& 0x3f) ||| (jlP7 grp <<< 7)) ||| (jlP6 grp <<< 6)) &&& 0xc0 =
      jlParityByte grp := by
  have h := (byte0_facts (jlP7 grp) (Nat.lt_of_le_of_lt (jlP7_le_one grp) one_lt_two)
    (jlP6 grp) (Nat.lt_of_le_of_lt (jlP6_le_one grp) one_lt_two)
    (dst &&& 63) (jl_dst_lt dst)).1
  simpa [jlParityByte] using h

/-- Masking byte 0 of an encoded packet with 0x3f yields the destination. -/
theorem encode_byte0_dst (grp dst : Nat) (hd : dst < 64) :
    (((dst &&& 0x3f) ||| (jlP7 grp <<< 7)) ||| (jlP6 grp <<< 6)) &&& 0x3f = dst := by
  have h := (byte0_facts (jlP7 grp) (Nat.lt_of_le_of_lt (jlP7_le_one grp) one_lt_two)
    (jlP6 grp) (Nat.lt_of_le_of_lt (jlP6_le_one grp) one_lt_two)
    (dst &&& 63) (jl_dst_lt dst)).2
  rw [h, land63_self dst hd]

/-- **C1**: For every group id, every `src`, `dst` in `[0,63]`, every ack flag
and every payload, decoding the result of encoding under the same group id
succeeds and returns exactly `(src, dst, ack, payload)`. -/
theorem JLDecode_JLEncode (grp src dst : Nat) (ack : Bool) (payload : List Nat)
    (hs : src < 64) (hd : dst < 64) :
    JLDecode grp (JLEncode grp src dst ack payload) = .ok ⟨src, dst, ack, payload⟩ := by
  have hparity := encode_byte0_parity grp dst
  have hdst := encode_byte0_dst grp dst hd
  cases ack with
  | false =>
    have hsrc : (src &&& 0x3f) ||| 0 = src := by
      rw [Nat.or_zero, land63_self src hs]
    simp only [JLEncode, JLDecode, if_false]
    rw [if_neg (by simp [hparity])]
    simp [hsrc, land63_self src hs, land128_eq_zero src hs, hdst]
  | true =>
    have hsrc63 : src &&& 0x3f = src := land63_self src hs
    simp only [JLEncode, JLDecode, if_true]
    rw [if_neg (by simp [hparity])]
    rw [hsrc63]
    simp [hdst, (byte1_facts src hs).1, (byte1_facts src hs).2]

/-- Witness for `JLDecode_JLEncode` at a concrete input. -/
theorem JLDecode_JLEncode_witness :
    JLDecode 1 (JLEncode 1 2 3 true [5, 6, 7]) = .ok ⟨2, 3, true, [5, 6, 7]⟩ :=
  JLDecode_JLEncode 1 2 3 true [5, 6, 7] (by decide) (by decide)

/-- `true` iff a decode result is the too-short failure. -/
def failsTooShort (r : Except JLError JLPacket) : Bool :=
  match r with
  | .error (.tooShort _) => true
  | _ => false

/-- `true` iff a decode result is the group-parity-mismatch failure. -/
def failsGroupMismatch (r : Except JLError JLPacket) : Bool :=
  match r with
  | .error (.groupMismatch _ _) => true
  | _ => false

/-- **C2**: `JLDecode` fails too-short exactly on inputs of fewer than 2 bytes;
on longer inputs it fails with a group mismatch exactly when the parity bits
computed from the group differ from the top two bits of byte 0, and succeeds
otherwise; decoding a packet encoded for a group with different parity bits
always fails with a group mismatch. -/
theorem JLDecode_error_cases (grp : Nat) (b : List Nat) :
    (failsTooShort (JLDecode grp b) = true ↔ b.length < 2) ∧
    (∀ b0 b1 rest, b = b0 :: b1 :: rest →
      ((failsGroupMismatch (JLDecode grp b) = true ↔ (b0 &&& 0xc0) ≠ jlParityByte grp) ∧
       ((b0 &&& 0xc0) = jlParityByte grp → ∃ p, JLDecode grp b = .ok p))) ∧
    (∀ grp2 src dst : Nat, ∀ ack : Bool, ∀ payload : List Nat,
      jlParityByte grp ≠ jlParityByte grp2 →
      failsGroupMismatch (JLDecode grp (JLEncode grp2 src dst ack payload)) = true) := by
  refine ⟨?_, ?_, ?_⟩
  · match b with
    | [] => simp [JLDecode, failsTooShort]
    | [b0] => simp [JLDecode, failsTooShort]
    | b0 :: b1 :: rest =>
      simp only [JLDecode]
      split
      · simp [failsTooShort]
      · simp [failsTooShort]
  · rintro b0 b1 rest rfl
    constructor
    · simp only [JLDecode]
      split
      · simpa [failsGroupMismatch] using by assumption
      · next hcond =>
        simp only [failsGroupMismatch, Bool.false_eq_true, false_iff]
        exact not_not_intro (not_not.mp hcond)
    · intro hok
      simp [JLDecode, hok]
  · intro grp2 src dst ack payload hne
    have hb0 := encode_byte0_parity grp2 dst
    simp only [JLEncode, JLDecode]
    rw [if_pos (by rw [hb0]; exact fun h => hne h.symm)]
    rfl

/-- Witness for `JLDecode_error_cases` at concrete inputs: group 0 and group 1
have different parity bytes, and cross-group decoding is a group mismatch. -/
theorem JLDecode_error_cases_witness :
    ([0, 2, 9] : List Nat) = 0 :: 2 :: [9] ∧
    (failsGroupMismatch (JLDecode 0 [0, 2, 9]) = true ↔ (0 &&& 0xc0) ≠ jlParityByte 0) ∧
    jlParityByte 0 ≠ jlParityByte 1 ∧
    failsGroupMismatch (JLDecode 0 (JLEncode 1 5 6 false [7])) = true := by
  refine ⟨rfl, ((JLDecode_error_cases 0 [0, 2, 9]).2.1 0 2 [9] rfl).1, by decide, ?_⟩
  exact (JLDecode_error_cases 0 (JLEncode 1 5 6 false [7])).2.2 1 5 6 false [7] (by decide)

/-- A successful decode yields node ids below 64 (they are 6-bit masked). -/
theorem JLDecode_ok_bounds (grp : Nat) (pkt : List Nat) (p : JLPacket)
    (h : JLDecode grp pkt = .ok p) : p.src < 64 ∧ p.dst < 64 := by
  match pkt with
  | [] => simp [JLDecode] at h
  | [b0] => simp [JLDecode] at h
  | b0 :: b1 :: rest =>
    simp only [JLDecode] at h
    split at h
    · exact absurd h (by simp)
    · have hp : p = ⟨b1 &&& 0x3f, b0 &&& 0x3f, b1 &&& 0x80 != 0, rest⟩ :=
        (Except.ok.injEq .. ▸ h.symm)
      subst hp
      exact ⟨jl_dst_lt b1, jl_dst_lt b0⟩

/-- **C3**: for a packet that decodes successfully, `MakeJLAck` returns nothing
when the ack flag is unset; when it is set, it returns an encoded packet whose
decode swaps source and destination, has empty payload and an unset ack flag. -/
theorem MakeJLAck_spec (grp : Nat) (pkt : List Nat) (p : JLPacket)
    (h : JLDecode grp pkt = .ok p) :
    (p.ack = false → MakeJLAck grp pkt = none) ∧
    (p.ack = true → ∃ apkt, MakeJLAck grp pkt = some apkt ∧
      JLDecode grp apkt = .ok ⟨p.dst, p.src, false, []⟩) := by
  obtain ⟨hsrc, hdst⟩ := JLDecode_ok_bounds grp pkt p h
  constructor
  · intro hack
    simp [MakeJLAck, h, hack]
  · intro hack
    refine ⟨JLEncode grp p.dst p.src false [], ?_, ?_⟩
    · simp [MakeJLAck, h, hack]
    · exact JLDecode_JLEncode grp p.dst p.src false [] hdst hsrc

/-- Witness for `MakeJLAck_spec`: an ack-requesting packet under group 0. -/
theorem MakeJLAck_spec_witness :
    ∃ apkt, MakeJLAck 0 [0, 130] = some apkt ∧
      JLDecode 0 apkt = .ok ⟨0, 2, false, []⟩ :=
  (MakeJLAck_spec 0 [0, 130] ⟨2, 0, true, []⟩ (by decide)).2 rfl

/-- **C10**: when decoding fails, `MakeJLAck` synthesizes no acknowledgement.
(The Lean model is a total function, mirroring that the Go code indexes the
packet only through `JLDecode`, which guards its own length check.) -/
theorem MakeJLAck_decode_error (grp : Nat) (pkt : List Nat) (e : JLError)
    (h : JLDecode grp pkt = .error e) : MakeJLAck grp pkt = none := by
  simp [MakeJLAck, h]

/-- Witness for `MakeJLAck_decode_error`: the empty packet is too short. -/
theorem MakeJLAck_decode_error_witness : MakeJLAck 0 [] = none :=
  MakeJLAck_decode_error 0 [] (.tooShort 0) (by decide)

/-- **C5** (counterexample): group id 6 has parity bits `0b11`, so encoding
`(6, src 2, dst 1, no ack, empty)` yields `[0xc1, 0x02]`, not `[0x81, 0x02]`
as the claim states. -/
theorem JLEncode_group6_counterexample :
    JLEncode 6 2 1 false [] = [0xc1, 0x02] ∧
    JLEncode 6 2 1 false [] ≠ [0x81, 0x02] := by decide

/-- **C5** (amended): group id 62 is the one whose parity bits are `0b10`
(as in the repository's own test vector): encoding `(62, 2, 1, false, [])`
yields `[0x81, 0x02]` and decodes back exactly; for group id 6 the parity
bits are `0b11`, the encoding is `[0xc1, 0x02]`, and it also decodes back
exactly. -/
theorem JLEncode_scenario_amended :
    jlParityByte 62 = 0x80 ∧
    JLEncode 62 2 1 false [] = [0x81, 0x02] ∧
    JLDecode 62 [0x81, 0x02] = .ok ⟨2, 1, false, []⟩ ∧
    jlParityByte 6 = 0xc0 ∧
    JLDecode 6 (JLEncode 6 2 1 false []) = .ok ⟨2, 1, false, []⟩ := by decide

/-! ## JeeLabs LoRa codec (sx1276 JLLEncode) -/

/-- RSSI trailer byte of `JLLEncode`: the received signal strength plus 164,
clamped to `[0, 127]`. -/
def jllRssiByte (rssi : Int) : Nat :=
  if rssi + 164 > 127 then 127
  else if rssi + 164 < 0 then 0
  else (rssi + 164).toNat

/-- FEI trailer byte of `JLLEncode`: `fei / 128` with Go's integer division
(truncation toward zero, `Int.tdiv`), clamped to `[-128, 127]` and stored as a
two's-complement byte. -/
def jllFeiByte (fei : Int) : Nat :=
  if Int.tdiv fei 128 > 127 then 127
  else if Int.tdiv fei 128 < -128 then 0x80
  else (Int.tdiv fei 128 % 256).toNat

/-- `JLLEncode` from the sx1276 package: header byte (ctrl/dest/ack bits plus
5-bit node id), packet-kind byte (top bit flags the info trailer), payload,
and — when `rssi` is nonzero — the 2-byte info trailer. -/
def JLLEncode (hdr : Nat) (toGW : Bool) (node kind : Nat) (payload : List Nat)
    (rssi fei : Int) : List Nat :=
  let b0h := (((hdr &&& 2) <<< 6) ||| ((hdr &&& 1) <<< 5)) ||| (node &&& 0x1f)
  let b0 := if toGW then b0h else b0h ||| 0x40
  if rssi = 0 then
    b0 :: (kind &&& 0x7f) :: payload
  else
    b0 :: ((kind &&& 0x7f) ||| 0x80) :: (payload ++ [jllRssiByte rssi, jllFeiByte fei])

/-- Modelled from the spec's words: the FEI trailer byte as "the frequency
error right-shifted by 7 bits", i.e. floor division by 128 (`Int.fdiv`),
clamped to a signed byte and stored two's-complement. -/
def jllFeiByteShift (fei : Int) : Nat :=
  ((max (min (Int.fdiv fei 128) 127) (-128)) % 256).toNat

/-- **C6** (counterexample): at `fei = -1` the code's truncating division gives
trailer byte `0`, while an arithmetic right shift by 7 bits would give `-1`,
i.e. byte `0xff`; so the encoded trailer differs from the claimed value. -/
theorem JLLEncode_fei_counterexample :
    JLLEncode 0 true 1 0 [] (-100) (-1) = [1, 128, 64, 0] ∧
    jllFeiByteShift (-1) = 0xff ∧
    (JLLEncode 0 true 1 0 [] (-100) (-1)).getLast? ≠ some (jllFeiByteShift (-1)) := by
  decide

/-- **C6** (amended): whenever `rssi ≠ 0`, `JLLEncode` appends a 2-byte
trailer whose first byte is `rssi + 164` clamped to `[0, 127]` and whose
second byte is `fei` divided by 128 truncating toward zero (not an arithmetic
right shift), clamped to `[-128, 127]` and stored as a two's-complement
byte. -/
theorem JLLEncode_trailer (hdr node kind : Nat) (toGW : Bool) (payload : List Nat)
    (rssi fei : Int) (h : rssi ≠ 0) :
    (∃ b0 b1, JLLEncode hdr toGW node kind payload rssi fei =
      b0 :: b1 :: (payload ++ [jllRssiByte rssi, jllFeiByte fei])) ∧
    jllRssiByte rssi = (min (max (rssi + 164) 0) 127).toNat ∧
    jllFeiByte fei = ((max (min (Int.tdiv fei 128) 127) (-128)) % 256).toNat := by
  refine ⟨?_, ?_, ?_⟩
  · simp only [JLLEncode, if_neg h]
    exact ⟨_, _, rfl⟩
  · unfold jllRssiByte
    split_ifs <;> omega
  · unfold jllFeiByte
    generalize Int.tdiv fei 128 = f
    split_ifs <;> omega

/-- Witness for `JLLEncode_trailer` at a concrete input with negative `fei`. -/
theorem JLLEncode_trailer_witness :
    (∃ b0 b1, JLLEncode 0 true 1 0 [] (-100) (-300) =
      b0 :: b1 :: ([] ++ [jllRssiByte (-100), jllFeiByte (-300)])) ∧
    jllRssiByte (-100) = (min (max ((-100 : Int) + 164) 0) 127).toNat ∧
    jllFeiByte (-300) = ((max (min (Int.tdiv (-300) 128) 127) (-128)) % 256).toNat :=
  JLLEncode_trailer 0 1 0 true [] (-100) (-300) (by decide)

/-! ## Transmit path (sx1231 Radio.send, sx1276 Radio.Transmit) -/

/-- Outcome of a transmit request: the bytes pushed to the radio FIFO (if
any), and whether a busy error was returned to the caller. -/
structure TxOutcome where
  written : Option (List Nat)
  busy : Bool
deriving DecidableEq, Repr

/-- `Radio.send` from the sx1231 driver: payloads over 65 bytes are truncated,
empty payloads are silently dropped; the FIFO receives a length byte followed
by the payload. -/
def sx1231Send (payload : List Nat) : TxOutcome :=
  if payload.length > 65 then
    ⟨some ((payload.take 65).length :: payload.take 65), false⟩
  else if payload.length = 0 then
    ⟨none, false⟩
  else
    ⟨some (payload.length :: payload), false⟩

/-- `Radio.Transmit` from the sx1276 driver: returns a busy error while a
reception is in progress, truncates payloads over 250 bytes, and has no
empty-payload special case; the FIFO receives the (possibly truncated)
payload, its length going to a separate register. -/
def sx1276Transmit (receiving : Bool) (payload : List Nat) : TxOutcome :=
  if receiving then ⟨none, true⟩
  else ⟨some (if payload.length > 250 then payload.take 250 else payload), false⟩

/-- **C7** (counterexample): for the LoRa radio an empty transmit request is
not a no-op — a zero-length packet is pushed to the radio. -/
theorem sx1276_empty_transmit_counterexample :
    sx1276Transmit false [] = ⟨some [], false⟩ ∧
    (sx1276Transmit false []).written ≠ none := by decide

/-- **C7** (amended): the FSK radio drops empty payloads silently and
truncates payloads over 65 bytes to 65; the LoRa radio truncates payloads
over 250 bytes to 250 but transmits an empty payload as a zero-length packet
(and reports busy, writing nothing, while receiving). -/
theorem transmit_spec (payload : List Nat) :
    (payload.length = 0 → sx1231Send payload = ⟨none, false⟩) ∧
    (payload.length > 65 → sx1231Send payload = ⟨some (65 :: payload.take 65), false⟩) ∧
    (0 < payload.length → payload.length ≤ 65 →
      sx1231Send payload = ⟨some (payload.length :: payload), false⟩) ∧
    (payload.length > 250 →
      sx1276Transmit false payload = ⟨some (payload.take 250), false⟩) ∧
    (payload.length ≤ 250 → sx1276Transmit false payload = ⟨some payload, false⟩) ∧
    sx1276Transmit true payload = ⟨none, true⟩ := by
  refine ⟨?_, ?_, ?_, ?_, ?_, rfl⟩
  · intro h0
    rw [sx1231Send, if_neg (by omega), if_pos h0]
  · intro h65
    rw [sx1231Send, if_pos h65, List.length_take, Nat.min_eq_left (by omega)]
  · intro hpos hle
    rw [sx1231Send, if_neg (by omega), if_neg (by omega)]
  · intro h250
    rw [sx1276Transmit, if_neg Bool.false_ne_true, if_pos h250]
  · intro hle
    rw [sx1276Transmit, if_neg Bool.false_ne_true, if_neg (by omega)]

/-- Witness for `transmit_spec` at concrete inputs. -/
theorem transmit_spec_witness :
    sx1231Send [] = ⟨none, false⟩ ∧
    sx1231Send [9] = ⟨some [1, 9], false⟩ ∧
    sx1276Transmit false [9] = ⟨some [9], false⟩ :=
  ⟨(transmit_spec []).1 rfl,
   (transmit_spec [9]).2.2.1 (by decide) (by decide),
   (transmit_spec [9]).2.2.2.2.1 (by decide)⟩

/-! ## Adaptive RSSI-threshold adjustment (sx1231 Radio.worker) -/

/-- One adjustment step of the adaptive receive-threshold loop in the sx1231
worker: the timeout rate (a `float64` in the Go code, modelled as a rational,
on which the comparisons against 10 and 2.5 are exact) is compared against
the band `[2.5, 10]`; the RSSI-threshold register is a byte and wraps
accordingly. -/
def adjustRssiThres (timeoutPerSec : ℚ) (thres : Nat) : Nat :=
  if timeoutPerSec > 10 then (thres + 255) % 256
  else if timeoutPerSec < 5 / 2 then (thres + 1) % 256
  else thres

/-- **C8**: a rate above 10/s decrements the threshold register by one (raising
the threshold, since the register holds `-2*dBm`), a rate below 2.5/s
increments it, and a rate inside `[2.5, 10]` leaves it unchanged. -/
theorem adjustRssiThres_spec (rate : ℚ) (thres : Nat) (hb : thres < 256) :
    (rate > 10 → adjustRssiThres rate thres = (thres + 255) % 256 ∧
      (0 < thres → adjustRssiThres rate thres = thres - 1)) ∧
    (rate < 5 / 2 → adjustRssiThres rate thres = (thres + 1) % 256 ∧
      (thres < 255 → adjustRssiThres rate thres = thres + 1)) ∧
    (5 / 2 ≤ rate → rate ≤ 10 → adjustRssiThres rate thres = thres) := by
  refine ⟨?_, ?_, ?_⟩
  · intro hr
    rw [adjustRssiThres, if_pos hr]
    exact ⟨rfl, fun hpos => by omega⟩
  · intro hr
    rw [adjustRssiThres, if_neg (by linarith), if_pos hr]
    exact ⟨rfl, fun hlt => by omega⟩
  · intro hlo hhi
    rw [adjustRssiThres, if_neg (by linarith), if_neg (by linarith)]

/-- Witness for `adjustRssiThres_spec` at concrete rates around the band. -/
theorem adjustRssiThres_spec_witness :
    adjustRssiThres 11 100 = 99 ∧ adjustRssiThres 1 100 = 101 ∧
      adjustRssiThres 5 100 = 100 :=
  ⟨((adjustRssiThres_spec 11 100 (by norm_num)).1 (by norm_num)).2 (by norm_num),
   ((adjustRssiThres_spec 1 100 (by norm_num)).2.1 (by norm_num)).2 (by norm_num),
   (adjustRssiThres_spec 5 100 (by norm_num)).2.2 (by norm_num) (by norm_num)⟩

/-! ## Message bus deduplication (cmd/mqttradio/mqtt.go)

Topics and serialized payloads are byte sequences; timestamps are integers
(seconds). The dedup table is an association list from the 64-bit FNV-1 hash
to the insertion time, with Go-map semantics (insert overwrites, delete
removes). -/

/-- One step of 64-bit FNV-1 (`hash/fnv.New64`): multiply by the FNV prime
modulo `2^64`, then xor the next byte. -/
def fnv64Step (h b : Nat) : Nat := ((h * 1099511628211) % 2 ^ 64) ^^^ (b % 256)

/-- 64-bit FNV-1 over a byte sequence, from the FNV offset basis. -/
def fnv64 (bytes : List Nat) : Nat := bytes.foldl fnv64Step 14695981039346656037

/-- `hashMessage` from mqtt.go: joins topic and serialized payload with the
UTF-8 bytes `0xc7 0x82` of the separator character U+01C2 and hashes the
result with 64-bit FNV-1. -/
def hashMessage (topic payload : List Nat) : Nat :=
  fnv64 (topic ++ [0xc7, 0x82] ++ payload)

/-- Look a hash up in the dedup table. -/
def dedupLookup (d : List (Nat × Int)) (h : Nat) : Option Int :=
  (d.find? (fun e => e.1 == h)).map (·.2)

/-- Go-map assignment `dedup[h] = t`: any previous entry for `h` is replaced. -/
def dedupInsert (d : List (Nat × Int)) (h : Nat) (t : Int) : List (Nat × Int) :=
  (h, t) :: d.filter (fun e => e.1 != h)

/-- Go-map `delete(dedup, h)`. -/
def dedupRemove (d : List (Nat × Int)) (h : Nat) : List (Nat × Int) :=
  d.filter (fun e => e.1 != h)

/-- A subscription hook: a topic and the identity of its channel. -/
structure SubHook where
  topic : List Nat
  ch : Nat
deriving DecidableEq, Repr

/-- The dedup-relevant state of an `mq` broker handle. -/
structure MqState where
  subHooks : List SubHook
  dedup : List (Nat × Int)
deriving DecidableEq, Repr

/-- A local delivery: (channel, topic, payload). -/
abbrev Delivery := Nat × List Nat × List Nat

/-- `mq.Publish`: deliver synchronously to every hook registered on exactly
this topic, in registration order; then publish externally and record the
(topic, serialized payload) hash with the current time in the dedup table. -/
def mqPublish (st : MqState) (now : Int) (topic payload : List Nat) :
    MqState × List Delivery :=
  let deliveries := (st.subHooks.filter (fun hk => hk.topic == topic)).map
    (fun hk => (hk.ch, topic, payload))
  ({ st with dedup := dedupInsert st.dedup (hashMessage topic payload) now }, deliveries)

/-- The inbound broker callback installed by `mq.Subscribe` for channel `ch`:
compute the (topic, payload) hash; delete it from the dedup table; if it was
present, discard the message (it is the echo of a local publish already
delivered), else deliver it to the channel. -/
def mqInbound (st : MqState) (ch : Nat) (topic payload : List Nat) :
    MqState × List Delivery :=
  let h := hashMessage topic payload
  let dup := (dedupLookup st.dedup h).isSome
  let st' := { st with dedup := dedupRemove st.dedup h }
  if dup then (st', []) else (st', [(ch, topic, payload)])

theorem dedupLookup_insert (d : List (Nat × Int)) (h : Nat) (t : Int) :
    dedupLookup (dedupInsert d h t) h = some t := by
  simp [dedupLookup, dedupInsert, List.find?]

theorem dedupLookup_remove (d : List (Nat × Int)) (h : Nat) :
    dedupLookup (dedupRemove d h) h = none := by
  have : (dedupRemove d h).find? (fun e => e.1 == h) = none := by
    rw [List.find?_eq_none]
    intro e he
    have := (List.mem_filter.mp he).2
    simpa using this
  simp [dedupLookup, this]

/-- **C4**: a `Publish` short-circuits exactly one synchronous delivery to each
hook registered on the topic and records the message hash; the subsequent
broker echo of the identical serialized payload on the same topic finds the
hash, removes it, and is discarded, so no handler sees the message twice. -/
theorem publish_echo_delivers_once (st : MqState) (now : Int)
    (topic payload : List Nat) (ch : Nat) :
    ((mqPublish st now topic payload).2 =
      (st.subHooks.filter (fun hk => hk.topic == topic)).map
        (fun hk => (hk.ch, topic, payload))) ∧
    dedupLookup (mqPublish st now topic payload).1.dedup
      (hashMessage topic payload) = some now ∧
    (mqInbound (mqPublish st now topic payload).1 ch topic payload).2 = [] ∧
    dedupLookup (mqInbound (mqPublish st now topic payload).1 ch topic payload).1.dedup
      (hashMessage topic payload) = none := by
  refine ⟨rfl, dedupLookup_insert _ _ _, ?_, ?_⟩
  · rw [mqInbound]
    simp only [mqPublish]
    rw [dedupLookup_insert]
    simp
  · rw [mqInbound]
    simp only [mqPublish]
    rw [dedupLookup_insert]
    simpa using dedupLookup_remove _ _

/-! ## Dedup garbage collection (mq.gc) -/

/-- One sweep of `mq.gc` at time `now`: remove every entry strictly older than
`now - 600` seconds (ten minutes), keep the rest. -/
def mqGC (now : Int) (d : List (Nat × Int)) : List (Nat × Int) :=
  d.filter (fun e => !decide (e.2 < now - 600))

/-- **C9**: a garbage-collection sweep keeps exactly the entries not older
than ten minutes (making it a sublist of the table, so the table never grows
from a sweep), and afterwards every remaining entry is within the age
bound. -/
theorem mqGC_spec (now : Int) (d : List (Nat × Int)) :
    (∀ e, e ∈ mqGC now d ↔ e ∈ d ∧ ¬(e.2 < now - 600)) ∧
    (∀ e, e ∈ mqGC now d → now - 600 ≤ e.2) ∧
    List.Sublist (mqGC now d) d ∧
    (mqGC now d).length ≤ d.length := by
  refine ⟨?_, ?_, List.filter_sublist d, (List.filter_sublist d).length_le⟩
  · intro e
    simp [mqGC, List.mem_filter]
  · intro e he
    have := (List.mem_filter.mp he).2
    simp only [Bool.not_eq_true', decide_eq_false_iff_not, not_lt] at this
    exact this

/-- Witness for `mqGC_spec`: at sweep time 1000, the entry stamped 0 is
removed and the entry stamped 1000 is kept and within the bound. -/
theorem mqGC_spec_witness :
    ((1, 0) ∈ mqGC 1000 [(1, 0), (2, 1000)] ↔
      ((1, 0) ∈ [((1 : Nat), (0 : Int)), (2, 1000)] ∧ ¬((0 : Int) < 1000 - 600))) ∧
    (1000 : Int) - 600 ≤ 1000 :=
  ⟨(mqGC_spec 1000 [(1, 0), (2, 1000)]).1 (1, 0),
   (mqGC_spec 1000 [(1, 0), (2, 1000)]).2.1 (2, 1000) (by decide)⟩

end Devices
